import Mathlib

/-!
Verification of the todo-api service layer (todo_api/services and
todo_api/security.py), shallowly embedded in Lean.

Database tables are modelled as lists of records; the SQLAlchemy session's
`add` + `flush` pair is modelled as an insert that fails with an integrity
error exactly when a `unique=True` column constraint (declared in
todo_api/models) would be violated.  Python truthiness is modelled
explicitly where the source relies on it (`if jti:`, `not todo.completed_at`).
JWTs are modelled symbolically: a token is either a payload signed with the
service secret or malformed; `decode_token` fails closed on malformed input
and on expiry, mirroring jose's behaviour.  UUID jtis are modelled as
naturals drawn from a fresh-supply counter.
-/

namespace TodoApi

/-- Typed errors of the service layer (todo_api/exceptions.py), together with
the database integrity error raised at flush time on a unique-constraint
violation and passlib's error for an unidentifiable hash. -/
inductive ServiceError where
  | authenticationException (message : String) (error_code : String)
  | validationException (message : String) (error_code : String)
  | conflictException (message : String) (error_code : String)
  | resourceNotFoundException (message : String) (error_code : String)
  | integrityError
  | unknownHashError
  deriving Repr, DecidableEq

/-- Python truthiness of an optional string: `None` and `""` are falsy. -/
def optStrTruthy : Option String → Bool
  | none => false
  | some s => !s.isEmpty

/-- Python truthiness of `kwargs.get("is_completed")`: `None` and `False`
are falsy. -/
def optBoolTruthy : Option Bool → Bool
  | none => false
  | some b => b

/-! ## Todo model and TodoService (todo_api/models/todo.py, services/todo_service.py) -/

/-- A row of the `todos` table. -/
structure Todo where
  id : Nat
  user_id : Nat
  title : String
  description : Option String := none
  is_completed : Bool := false
  completed_at : Option String := none
  deriving Repr, DecidableEq

/-- The todos table plus the autoincrement id supply. -/
structure TodoDb where
  todos : List Todo
  nextId : Nat
  deriving Repr, DecidableEq

/-- `TodoService.create_todo`: builds a Todo with `is_completed=False`
(`completed_at` keeps its column default `None`) and flushes it. -/
def create_todo (user_id : Nat) (title : String) (description : Option String)
    (db : TodoDb) : Todo × TodoDb :=
  let todo : Todo :=
    { id := db.nextId, user_id := user_id, title := title,
      description := description, is_completed := false }
  (todo, { todos := db.todos ++ [todo], nextId := db.nextId + 1 })

/-- `TodoService.get_todo`: first row matching `id == todo_id AND
user_id == user_id`, or `None`. -/
def get_todo (todo_id user_id : Nat) (db : TodoDb) : Option Todo :=
  db.todos.find? (fun t => t.id == todo_id && t.user_id == user_id)

/-- The `**kwargs` of `TodoService.update_todo` as sent by the route layer
(`TodoUpdate.model_dump(exclude_unset=True)`): each field is present or
absent. -/
structure TodoUpdate where
  title : Option String := none
  description : Option (Option String) := none
  is_completed : Option Bool := none
  deriving Repr, DecidableEq

/-- The `setattr` loop of `update_todo` over the present kwargs
(`id`, `user_id`, `created_at` are excluded by the source). -/
def applyUpdateFields (t : Todo) (u : TodoUpdate) : Todo :=
  let t1 := match u.title with
    | some v => { t with title := v }
    | none => t
  let t2 := match u.description with
    | some v => { t1 with description := v }
    | none => t1
  match u.is_completed with
  | some v => { t2 with is_completed := v }
  | none => t2

/-- Replace the first element satisfying `p` (the ORM mutates the fetched
row in place; the flushed table has that row replaced). -/
def setFirstTodo (p : Todo → Bool) (new : Todo) : List Todo → List Todo
  | [] => []
  | x :: xs => if p x then new :: xs else x :: setFirstTodo p new xs

/-- Remove the first element satisfying `p` (`session.delete` on the
fetched row). -/
def removeFirstTodo (p : Todo → Bool) : List Todo → List Todo
  | [] => []
  | x :: xs => if p x then xs else x :: removeFirstTodo p xs

/-- `TodoService.update_todo`.  `now_iso` stands for
`datetime.now(UTC).isoformat()`.  After the setattr loop the source runs
two truthiness-guarded fixups:
`if kwargs.get("is_completed") and not todo.completed_at` stamps the
timestamp, and `if not kwargs.get("is_completed") and todo.completed_at`
clears it. -/
def update_todo (now_iso : String) (todo_id user_id : Nat) (u : TodoUpdate)
    (db : TodoDb) : Except ServiceError (Todo × TodoDb) :=
  match get_todo todo_id user_id db with
  | none => .error (.resourceNotFoundException "Todo not found" "NOT_FOUND_002")
  | some todo0 =>
    let todo1 := applyUpdateFields todo0 u
    let todo2 :=
      if optBoolTruthy u.is_completed && !(optStrTruthy todo1.completed_at) then
        { todo1 with completed_at := some now_iso }
      else todo1
    let todo3 :=
      if !(optBoolTruthy u.is_completed) && optStrTruthy todo2.completed_at then
        { todo2 with completed_at := none }
      else todo2
    .ok (todo3,
      { db with
        todos := setFirstTodo (fun t => t.id == todo_id && t.user_id == user_id)
          todo3 db.todos })

/-- `TodoService.delete_todo`. -/
def delete_todo (todo_id user_id : Nat) (db : TodoDb) :
    Except ServiceError TodoDb :=
  match get_todo todo_id user_id db with
  | none => .error (.resourceNotFoundException "Todo not found" "NOT_FOUND_002")
  | some _ =>
    .ok { db with
      todos := removeFirstTodo (fun t => t.id == todo_id && t.user_id == user_id)
        db.todos }

/-! ## Security helpers (todo_api/security.py) -/

/-- Model of the external passlib bcrypt hash (`pwd_context.hash` with cost
factor 10 from config): bcrypt emits a modular-crypt-format string starting
with a `$2b$` scheme tag; salting and one-way-ness are not modelled, and the
hash is modelled as the tagged password so that verification is decidable
and the hash never equals the plain password. -/
def hash_password (password : String) : String :=
  "$2b$10$" ++ password

/-- Model of passlib's scheme identification: a hash is recognized by the
configured bcrypt scheme exactly when it carries the `$2b$` tag. -/
def isBcryptShaped (hashed : String) : Bool :=
  hashed.toList.take 4 == ['$', '2', 'b', '$']

/-- Model of the external `CryptContext(schemes=["bcrypt"]).verify`: on a
hash that no configured scheme identifies it raises `UnknownHashError`
(a `ValueError`); on a bcrypt-shaped hash it returns the boolean outcome of
the comparison. -/
def pwd_context_verify (plain hashed : String) : Except ServiceError Bool :=
  if isBcryptShaped hashed then .ok (hashed == hash_password plain)
  else .error .unknownHashError

/-- `verify_password`: delegates to `pwd_context.verify` with no exception
handling of its own. -/
def verify_password (plain_password hashed_password : String) :
    Except ServiceError Bool :=
  pwd_context_verify plain_password hashed_password

/-- The special-character class of `validate_password`
(source literal; the two braces are part of the character set). -/
def specialCharacters : String := "!@#$%^&*()_+-=[]\x7b\x7d|;:,.<>?"

/-- `validate_password`: the five checks in source order, returning
`(is_valid, error_message)` with the first failing requirement's message.
The `any(...)` generators over the password's characters are rendered over
its character list. -/
def validate_password (password : String) : Bool × Option String :=
  if password.length < 8 then
    (false, some "Password must be at least 8 characters")
  else if !(password.toList.any Char.isUpper) then
    (false, some "Password must contain uppercase letter")
  else if !(password.toList.any Char.isLower) then
    (false, some "Password must contain lowercase letter")
  else if !(password.toList.any Char.isDigit) then
    (false, some "Password must contain digit")
  else if !(password.toList.any (fun c => specialCharacters.toList.contains c)) then
    (false, some "Password must contain special character")
  else
    (true, none)

/-! ## User model, UserService and AuthService
(todo_api/models/user.py, services/user_service.py, services/auth_service.py) -/

/-- A row of the `users` table. -/
structure User where
  id : Nat
  email : String
  password_hash : String
  is_active : Bool
  deriving Repr, DecidableEq

/-- The users table plus the autoincrement id supply. -/
structure UserDb where
  users : List User
  nextId : Nat
  deriving Repr, DecidableEq

/-- `UserService.get_user_by_email`. -/
def get_user_by_email (email : String) (db : UserDb) : Option User :=
  db.users.find? (fun u => u.email == email)

/-- `UserService.create_user`: hashes the password, builds an active user
and flushes; the unique constraint on `email` surfaces as the
`ConflictException` the source maps `IntegrityError` to. -/
def create_user (email password : String) (db : UserDb) :
    Except ServiceError (User × UserDb) :=
  let password_hash := hash_password password
  if db.users.any (fun u => u.email == email) then
    .error (.conflictException "Email already registered" "CONFLICT_001")
  else
    let user : User :=
      { id := db.nextId, email := email, password_hash := password_hash,
        is_active := true }
    .ok (user, { users := db.users ++ [user], nextId := db.nextId + 1 })

/-- `AuthService.register_user`: email shape check, then password policy,
then `create_user`. -/
def register_user (email password : String) (db : UserDb) :
    Except ServiceError (User × UserDb) :=
  if email.isEmpty || !(email.toList.contains '@') then
    .error (.validationException "Invalid email format" "VALIDATION_001")
  else
    match validate_password password with
    | (true, _) => create_user email password db
    | (false, msg) =>
      .error (.validationException (msg.getD "") "VALIDATION_002")

/-- `AuthService.authenticate_user`: lookup by email, then active check,
then password verification; an error from passlib propagates unchanged. -/
def authenticate_user (email password : String) (db : UserDb) :
    Except ServiceError User :=
  match get_user_by_email email db with
  | none => .error (.authenticationException "Invalid email or password" "AUTH_001")
  | some user =>
    if !user.is_active then
      .error (.authenticationException "User account is inactive" "AUTH_005")
    else
      match verify_password password user.password_hash with
      | .error e => .error e
      | .ok ok =>
        if !ok then
          .error (.authenticationException "Invalid email or password" "AUTH_001")
        else
          .ok user

/-! ## Token codec (todo_api/security.py) and TokenService
(todo_api/models/token.py, services/token_service.py) -/

/-- The JSON value carried by the `sub` claim: `generate_tokens` stores the
integer user id there, while jose's claim validation only accepts a
string. -/
inductive SubClaim where
  | str (s : String)
  | num (n : Nat)
  deriving Repr, DecidableEq

/-- A JWT claim set as a Python dict with optional keys.  The source claim
key `"type"` is rendered as the field `typ`; uuid4 jtis are modelled as
naturals from a fresh supply. -/
structure Payload where
  sub : Option SubClaim := none
  email : Option String := none
  typ : Option String := none
  jti : Option Nat := none
  exp : Option Nat := none
  deriving Repr, DecidableEq

/-- jose's `_validate_sub` (run by `jwt.decode` with default options): a
missing `sub` claim passes, a present one must be a string, otherwise
`JWTError("Subject must be a string.")` is raised. -/
def subIsValid : Option SubClaim → Bool
  | none => true
  | some (.str _) => true
  | some (.num _) => false

/-- A token string: either a claim set signed with the service secret, or
anything else (bad signature, malformed structure), which decode rejects. -/
inductive Jwt where
  | signed (payload : Payload)
  | malformed (raw : String)
  deriving Repr, DecidableEq

/-- `settings.ACCESS_TOKEN_EXPIRE_MINUTES` (config.py default). -/
def ACCESS_TOKEN_EXPIRE_MINUTES : Nat := 60

/-- `settings.REFRESH_TOKEN_EXPIRE_DAYS` (config.py default). -/
def REFRESH_TOKEN_EXPIRE_DAYS : Nat := 7

/-- `create_access_token` with the default expiry: stamps
`exp = now + ACCESS_TOKEN_EXPIRE_MINUTES` (in seconds) and signs. -/
def create_access_token (now : Nat) (data : Payload) : Jwt :=
  .signed { data with exp := some (now + ACCESS_TOKEN_EXPIRE_MINUTES * 60) }

/-- `create_refresh_token` with the default expiry: stamps
`exp = now + REFRESH_TOKEN_EXPIRE_DAYS` (in seconds) and signs. -/
def create_refresh_token (now : Nat) (data : Payload) : Jwt :=
  .signed { data with exp := some (now + REFRESH_TOKEN_EXPIRE_DAYS * 86400) }

/-- `decode_token`: jose returns the payload of a well-signed token whose
`exp` claim (when present) has not passed and whose registered claims
validate — in particular a present `sub` claim must be a string
(`_validate_sub`); `None` (via `JWTError`) on a bad signature, malformed
input, expiry, or a non-string `sub`. -/
def decode_token (now : Nat) : Jwt → Option Payload
  | .malformed _ => none
  | .signed p =>
    match p.exp with
    | none => if subIsValid p.sub then some p else none
    | some e =>
      if e ≤ now then none
      else if subIsValid p.sub then some p else none

/-- A row of the `refresh_tokens` table (`token_jti` is `unique=True`). -/
structure RefreshTokenRec where
  user_id : Nat
  token_jti : Nat
  is_revoked : Bool
  deriving Repr, DecidableEq

/-- A row of the `token_blacklist` table (`token_jti` is `unique=True`). -/
structure BlacklistEntry where
  token_jti : Nat
  user_id : Nat
  deriving Repr, DecidableEq

/-- The token tables plus the uuid4 fresh supply. -/
structure TokenDb where
  refresh_tokens : List RefreshTokenRec
  blacklist : List BlacklistEntry
  nextJti : Nat
  deriving Repr, DecidableEq

/-- `TokenService._generate_jti`: uuid4 modelled as the next fresh value. -/
def _generate_jti (s : TokenDb) : Nat × TokenDb :=
  (s.nextJti, { s with nextJti := s.nextJti + 1 })

/-- `session.add` + `flush` of a RefreshToken row: raises `IntegrityError`
when the unique constraint on `token_jti` is violated. -/
def insertRefreshToken (r : RefreshTokenRec) (s : TokenDb) :
    Except ServiceError TokenDb :=
  if s.refresh_tokens.any (fun x => x.token_jti == r.token_jti) then
    .error .integrityError
  else
    .ok { s with refresh_tokens := s.refresh_tokens ++ [r] }

/-- `session.add` + `flush` of a TokenBlacklist row: raises
`IntegrityError` when the unique constraint on `token_jti` is violated. -/
def insertBlacklistEntry (b : BlacklistEntry) (s : TokenDb) :
    Except ServiceError TokenDb :=
  if s.blacklist.any (fun x => x.token_jti == b.token_jti) then
    .error .integrityError
  else
    .ok { s with blacklist := s.blacklist ++ [b] }

/-- `TokenService.get_refresh_token_by_jti`. -/
def get_refresh_token_by_jti (jti : Nat) (s : TokenDb) :
    Option RefreshTokenRec :=
  s.refresh_tokens.find? (fun r => r.token_jti == jti)

/-- `TokenService._is_token_blacklisted`. -/
def _is_token_blacklisted (jti : Nat) (s : TokenDb) : Bool :=
  s.blacklist.any (fun b => b.token_jti == jti)

/-- The dict returned by `generate_tokens`. -/
structure TokenPairResponse where
  access_token : Jwt
  refresh_token : Jwt
  token_type : String
  expires_in : Nat
  deriving Repr, DecidableEq

/-- `TokenService.generate_tokens`: two fresh jtis, one access claim set
(`type="access"`), one refresh claim set (`type="refresh"`), signs both,
flushes one RefreshToken row keyed by the refresh jti with
`is_revoked=False`, and returns both tokens with the access expiry in
seconds. -/
def generate_tokens (now : Nat) (user_id : Nat) (email : String)
    (s : TokenDb) : Except ServiceError (TokenPairResponse × TokenDb) :=
  let pr1 := _generate_jti s
  let access_jti := pr1.1
  let pr2 := _generate_jti pr1.2
  let refresh_jti := pr2.1
  let access_claims : Payload :=
    { sub := some (.num user_id), email := some email, typ := some "access",
      jti := some access_jti }
  let refresh_claims : Payload :=
    { sub := some (.num user_id), email := some email, typ := some "refresh",
      jti := some refresh_jti }
  let access_token := create_access_token now access_claims
  let refresh_token := create_refresh_token now refresh_claims
  match insertRefreshToken
      { user_id := user_id, token_jti := refresh_jti, is_revoked := false }
      pr2.2 with
  | .error e => .error e
  | .ok s3 =>
    .ok ({ access_token := access_token, refresh_token := refresh_token,
           token_type := "bearer",
           expires_in := ACCESS_TOKEN_EXPIRE_MINUTES * 60 }, s3)

/-- `TokenService.validate_token`: decode first (`AUTH_002` on failure),
then — only when the decoded payload carries a truthy jti — the blacklist
check (`AUTH_006`), else return the payload. -/
def validate_token (now : Nat) (token : Jwt) (s : TokenDb) :
    Except ServiceError Payload :=
  match decode_token now token with
  | none =>
    .error (.authenticationException "Invalid or expired token" "AUTH_002")
  | some payload =>
    match payload.jti with
    | some jti =>
      if _is_token_blacklisted jti s then
        .error (.authenticationException "Token has been revoked" "AUTH_006")
      else
        .ok payload
    | none => .ok payload

/-- The dict returned by `refresh_access_token` (no refresh token in it). -/
structure AccessTokenResponse where
  access_token : Jwt
  token_type : String
  expires_in : Nat
  deriving Repr, DecidableEq

/-- `TokenService.refresh_access_token`: validate, require
`payload.get("type") == "refresh"` (`AUTH_007`), look up the stored record
by the payload's jti (a missing jti looks up nothing), reject when absent
or revoked (`AUTH_006`), else mint and return a new access token only; the
only state change is the consumed jti. -/
def refresh_access_token (now : Nat) (refresh_token : Jwt) (s : TokenDb) :
    Except ServiceError (AccessTokenResponse × TokenDb) :=
  match validate_token now refresh_token s with
  | .error e => .error e
  | .ok payload =>
    if payload.typ != some "refresh" then
      .error (.authenticationException "Invalid token type" "AUTH_007")
    else
      match payload.jti.bind (fun j => get_refresh_token_by_jti j s) with
      | none =>
        .error (.authenticationException
          "Refresh token is invalid or revoked" "AUTH_006")
      | some db_token =>
        if db_token.is_revoked then
          .error (.authenticationException
            "Refresh token is invalid or revoked" "AUTH_006")
        else
          let pr := _generate_jti s
          let access_claims : Payload :=
            { sub := payload.sub, email := payload.email,
              typ := some "access", jti := some pr.1 }
          .ok ({ access_token := create_access_token now access_claims,
                 token_type := "bearer",
                 expires_in := ACCESS_TOKEN_EXPIRE_MINUTES * 60 }, pr.2)

/-- In-place `token.is_revoked = True` on the first row matching the jti. -/
def markFirstRevoked (jti : Nat) : List RefreshTokenRec → List RefreshTokenRec
  | [] => []
  | r :: rs =>
    if r.token_jti == jti then { r with is_revoked := true } :: rs
    else r :: markFirstRevoked jti rs

/-- `TokenService.revoke_refresh_token`: fetch the record, mark it revoked
when found (first flush), then unconditionally insert a blacklist row with
the record's user id or the sentinel 0 (second flush).  The returned state
reflects the flushes that succeeded before an integrity error, mirroring
the session at the point the exception is raised. -/
def revoke_refresh_token (jti : Nat) (s : TokenDb) :
    Option ServiceError × TokenDb :=
  let token := s.refresh_tokens.find? (fun r => r.token_jti == jti)
  let s1 :=
    match token with
    | some _ => { s with refresh_tokens := markFirstRevoked jti s.refresh_tokens }
    | none => s
  let entry : BlacklistEntry :=
    { token_jti := jti,
      user_id := match token with | some t => t.user_id | none => 0 }
  match insertBlacklistEntry entry s1 with
  | .ok s2 => (none, s2)
  | .error e => (some e, s1)

/-! ## Helper lemmas -/

/-- A non-empty literal tag precedes the password in the modelled hash, so
the stored hash never equals the plain password. -/
theorem hash_password_ne_password (p : String) : hash_password p ≠ p := by
  intro h
  have hlen := congrArg String.length h
  have h7 : ("$2b$10$" : String).length = 7 := rfl
  rw [hash_password, String.length_append, h7] at hlen
  omega

/-- `markFirstRevoked` never un-revokes: if every stored record for the jti
was already revoked, that stays true afterwards. -/
theorem markFirstRevoked_keeps (jti : Nat) (l : List RefreshTokenRec)
    (h : ∀ r ∈ l, r.token_jti = jti → r.is_revoked = true) :
    ∀ r ∈ markFirstRevoked jti l, r.token_jti = jti → r.is_revoked = true := by
  induction l with
  | nil => intro r hr; simp [markFirstRevoked] at hr
  | cons x xs ih =>
    intro r hr hjr
    by_cases hx : (x.token_jti == jti) = true
    · rw [markFirstRevoked, if_pos hx] at hr
      rcases List.mem_cons.mp hr with h1 | h1
      · subst h1; rfl
      · exact h r (List.mem_cons_of_mem x h1) hjr
    · rw [markFirstRevoked, if_neg hx] at hr
      rcases List.mem_cons.mp hr with h1 | h1
      · subst h1; exact h r (List.mem_cons_self r xs) hjr
      · exact ih (fun q hq => h q (List.mem_cons_of_mem x hq)) r h1 hjr

/-- Under the unique constraint on `token_jti`, marking the first matching
record leaves every record for the jti revoked. -/
theorem markFirstRevoked_marks (jti : Nat) (l : List RefreshTokenRec)
    (hnd : (l.map (fun r => r.token_jti)).Nodup) :
    ∀ r ∈ markFirstRevoked jti l, r.token_jti = jti → r.is_revoked = true := by
  induction l with
  | nil => intro r hr; simp [markFirstRevoked] at hr
  | cons x xs ih =>
    intro r hr hjr
    rw [List.map_cons, List.nodup_cons] at hnd
    by_cases hx : (x.token_jti == jti) = true
    · rw [markFirstRevoked, if_pos hx] at hr
      rcases List.mem_cons.mp hr with h1 | h1
      · subst h1; rfl
      · exfalso
        apply hnd.1
        rw [beq_iff_eq] at hx
        rw [hx, ← hjr]
        exact List.mem_map_of_mem _ h1
    · rw [markFirstRevoked, if_neg hx] at hr
      rcases List.mem_cons.mp hr with h1 | h1
      · subst h1
        exact absurd (beq_iff_eq.mpr hjr) hx
      · exact ih hnd.2 r h1 hjr

/-- `get_todo` finds nothing when no stored todo with the id is owned by
the user. -/
theorem get_todo_eq_none (db : TodoDb) (todo_id user_id : Nat)
    (h : ∀ t ∈ db.todos, t.id = todo_id → t.user_id ≠ user_id) :
    get_todo todo_id user_id db = none := by
  rw [get_todo, List.find?_eq_none]
  intro t ht hp
  rw [Bool.and_eq_true, beq_iff_eq, beq_iff_eq] at hp
  exact h t ht hp.1 hp.2

/-! ## Claim C1 -/

/-- Failing input for claim C1: one stored todo that satisfies the
completion invariant (completed, timestamp set). -/
def c1Db : TodoDb :=
  { todos := [{ id := 1, user_id := 1, title := "a", description := none,
                is_completed := true,
                completed_at := some "2026-01-01T00:00:00+00:00" }],
    nextId := 2 }

/-- Claim C1 (refuted on the code): updating a completed todo with only
`title` in its update set leaves `is_completed = true` but clears
`completed_at` to `None` — `update_todo` breaks the invariant that the
completion timestamp is non-null iff the completion flag is true, because
`kwargs.get("is_completed")` is falsy when the key is absent, so the
clear-timestamp branch fires without the flag being set to false. -/
theorem C1_title_only_update_breaks_completion_invariant :
    (update_todo "2026-02-02T00:00:00+00:00" 1 1 { title := some "b" }
        c1Db).toOption.map (fun r => (r.1.is_completed, r.1.completed_at)) =
      some (true, none) := by
  rfl

/-! ## Claim C2 -/

/-- Claim C2 (refuted on the code): `verify_password` applies
`pwd_context.verify` with no exception handling, so a malformed
(non-bcrypt-shaped) hash makes verification raise passlib's
`UnknownHashError` instead of returning false. -/
theorem C2_verify_malformed_hash_raises :
    verify_password "password" "not-a-bcrypt-hash" =
      .error .unknownHashError := by
  rfl

/-! ## Claim C4 -/

/-- Claim C4: `validate_token` decodes first and fails with the `AUTH_002`
authentication error whenever decoding fails — in particular for an expired
token, for every blacklist content; only a successfully decoded payload
with a jti reaches the blacklist check, which fails with the distinct
`AUTH_006` revoked error exactly when the jti is blacklisted; a decodable
payload without a jti is returned without ever being rejected as revoked. -/
theorem C4_validate_token_decode_then_blacklist (now : Nat) (token : Jwt)
    (s : TokenDb) :
    (decode_token now token = none →
      validate_token now token s =
        .error (.authenticationException "Invalid or expired token" "AUTH_002"))
  ∧ (∀ p e, token = .signed p → p.exp = some e → e ≤ now →
      validate_token now token s =
        .error (.authenticationException "Invalid or expired token" "AUTH_002"))
  ∧ (∀ p j, decode_token now token = some p → p.jti = some j →
      _is_token_blacklisted j s = true →
      validate_token now token s =
        .error (.authenticationException "Token has been revoked" "AUTH_006"))
  ∧ (∀ p j, decode_token now token = some p → p.jti = some j →
      _is_token_blacklisted j s = false →
      validate_token now token s = .ok p)
  ∧ (∀ p, decode_token now token = some p → p.jti = none →
      validate_token now token s = .ok p)
  ∧ (ServiceError.authenticationException "Token has been revoked" "AUTH_006" ≠
      ServiceError.authenticationException "Invalid or expired token" "AUTH_002") := by
  refine ⟨?_, ?_, ?_, ?_, ?_, by decide⟩
  · intro h
    simp [validate_token, h]
  · intro p e hs he hle
    subst hs
    have hd : decode_token now (Jwt.signed p) = none := by
      simp [decode_token, he, hle]
    simp [validate_token, hd]
  · intro p j hdec hj hbl
    simp [validate_token, hdec, hj, hbl]
  · intro p j hdec hj hbl
    simp [validate_token, hdec, hj, hbl]
  · intro p hdec hj
    simp [validate_token, hdec, hj]

/-- Token state for the C4 witness: jti 4 is blacklisted. -/
def c4Db : TokenDb :=
  { refresh_tokens := [], blacklist := [{ token_jti := 4, user_id := 1 }],
    nextJti := 5 }

/-- Witness for claim C4 at concrete inputs: an expired token fails with
`AUTH_002` even though its jti is blacklisted, and the same token before
expiry fails with the revoked error. -/
theorem C4_validate_token_decode_then_blacklist_witness :
    validate_token 10 (.signed { jti := some 4, exp := some 5 }) c4Db =
      .error (.authenticationException "Invalid or expired token" "AUTH_002")
  ∧ validate_token 0 (.signed { jti := some 4, exp := some 5 }) c4Db =
      .error (.authenticationException "Token has been revoked" "AUTH_006") := by
  constructor
  · exact (C4_validate_token_decode_then_blacklist 10
      (.signed { jti := some 4, exp := some 5 }) c4Db).2.1
      { jti := some 4, exp := some 5 } 5 rfl rfl (by decide)
  · exact (C4_validate_token_decode_then_blacklist 0
      (.signed { jti := some 4, exp := some 5 }) c4Db).2.2.1
      { jti := some 4, exp := some 5 } 4 rfl rfl (by decide)

/-! ## Claim C6 -/

/-- Claim C6: `authenticate_user` fails with the one generic
`AUTH_001` "Invalid email or password" error both when no user exists for
the email and when the password fails verification, while an inactive
account fails with the distinct `AUTH_005` error — and the inactive check
is decided before password verification (it fires for every password). -/
theorem C6_authenticate_user_error_policy (email password : String)
    (db : UserDb) :
    (get_user_by_email email db = none →
      authenticate_user email password db =
        .error (.authenticationException "Invalid email or password" "AUTH_001"))
  ∧ (∀ user, get_user_by_email email db = some user → user.is_active = true →
      verify_password password user.password_hash = .ok false →
      authenticate_user email password db =
        .error (.authenticationException "Invalid email or password" "AUTH_001"))
  ∧ (∀ user, get_user_by_email email db = some user → user.is_active = false →
      authenticate_user email password db =
        .error (.authenticationException "User account is inactive" "AUTH_005"))
  ∧ (ServiceError.authenticationException "User account is inactive" "AUTH_005" ≠
      ServiceError.authenticationException "Invalid email or password" "AUTH_001") := by
  refine ⟨?_, ?_, ?_, by decide⟩
  · intro h
    simp [authenticate_user, h]
  · intro user hu hact hv
    simp [authenticate_user, hu, hact, hv]
  · intro user hu hact
    simp [authenticate_user, hu, hact]

/-- User state for the C6 witness: one active user with a correctly
hashed password and one inactive user. -/
def c6Db : UserDb :=
  { users := [{ id := 1, email := "a@x.com",
                password_hash := hash_password "Passw0rd!", is_active := true },
              { id := 2, email := "b@x.com",
                password_hash := hash_password "Passw0rd!", is_active := false }],
    nextId := 3 }

/-- Witness for claim C6 at concrete inputs: unknown email and wrong
password yield the identical generic error; the inactive account yields
the distinct error even for the correct password. -/
theorem C6_authenticate_user_error_policy_witness :
    authenticate_user "c@x.com" "Passw0rd!" c6Db =
      .error (.authenticationException "Invalid email or password" "AUTH_001")
  ∧ authenticate_user "a@x.com" "wrong-password" c6Db =
      .error (.authenticationException "Invalid email or password" "AUTH_001")
  ∧ authenticate_user "b@x.com" "Passw0rd!" c6Db =
      .error (.authenticationException "User account is inactive" "AUTH_005") := by
  refine ⟨?_, ?_, ?_⟩
  · exact (C6_authenticate_user_error_policy "c@x.com" "Passw0rd!" c6Db).1 rfl
  · exact (C6_authenticate_user_error_policy "a@x.com" "wrong-password" c6Db).2.1
      { id := 1, email := "a@x.com", password_hash := hash_password "Passw0rd!",
        is_active := true } rfl rfl rfl
  · exact (C6_authenticate_user_error_policy "b@x.com" "Passw0rd!" c6Db).2.2.1
      { id := 2, email := "b@x.com", password_hash := hash_password "Passw0rd!",
        is_active := false } rfl rfl

/-! ## Claim C10 -/

/-- Claim C10: for a user who owns no stored todo with the given id,
`get_todo` returns none, and `update_todo` and `delete_todo` fail with the
`NOT_FOUND_002` "Todo not found" error — the very error they produce when
no todo with that id exists at all, so a non-owner cannot distinguish
another user's todo from an absent one; since the failing operations
return no new state, no other user's todo is read or modified. -/
theorem C10_cross_user_isolation (db : TodoDb) (todo_id user_id : Nat)
    (u : TodoUpdate) (now_iso : String)
    (hown : ∀ t ∈ db.todos, t.id = todo_id → t.user_id ≠ user_id) :
    get_todo todo_id user_id db = none
  ∧ update_todo now_iso todo_id user_id u db =
      .error (.resourceNotFoundException "Todo not found" "NOT_FOUND_002")
  ∧ delete_todo todo_id user_id db =
      .error (.resourceNotFoundException "Todo not found" "NOT_FOUND_002")
  ∧ (∀ db2 : TodoDb, (∀ t ∈ db2.todos, t.id ≠ todo_id) →
      update_todo now_iso todo_id user_id u db2 =
        .error (.resourceNotFoundException "Todo not found" "NOT_FOUND_002")
      ∧ delete_todo todo_id user_id db2 =
        .error (.resourceNotFoundException "Todo not found" "NOT_FOUND_002")) := by
  have hget : get_todo todo_id user_id db = none := get_todo_eq_none db _ _ hown
  refine ⟨hget, ?_, ?_, ?_⟩
  · simp [update_todo, hget]
  · simp [delete_todo, hget]
  · intro db2 habs
    have hget2 : get_todo todo_id user_id db2 = none :=
      get_todo_eq_none db2 _ _ (fun t ht hid => absurd hid (habs t ht))
    exact ⟨by simp [update_todo, hget2], by simp [delete_todo, hget2]⟩

/-- Todo state for the C10 witness: todo 1 exists but belongs to user 2. -/
def c10Db : TodoDb :=
  { todos := [{ id := 1, user_id := 2, title := "secret",
                description := none, is_completed := false,
                completed_at := none }],
    nextId := 2 }

/-- Witness for claim C10 at concrete inputs: user 1 probing user 2's todo
gets none / the same not-found errors as for an absent todo. -/
theorem C10_cross_user_isolation_witness :
    get_todo 1 1 c10Db = none
  ∧ update_todo "2026-02-02T00:00:00+00:00" 1 1 { title := some "x" } c10Db =
      .error (.resourceNotFoundException "Todo not found" "NOT_FOUND_002")
  ∧ delete_todo 1 1 c10Db =
      .error (.resourceNotFoundException "Todo not found" "NOT_FOUND_002") := by
  have h := C10_cross_user_isolation c10Db 1 1 { title := some "x" }
    "2026-02-02T00:00:00+00:00" (by decide)
  exact ⟨h.1, h.2.1, h.2.2.1⟩

/-! ## Claim C5 -/

/-- Claim C5, amended: for a jti that is not already blacklisted,
`revoke_refresh_token` raises nothing (in particular no not-found error),
appends exactly one blacklist entry carrying the matching record's user id
(or the sentinel 0 when no record exists), and — under the unique
constraint on `token_jti` — leaves every stored record for the jti
revoked. -/
theorem C5_revoke_marks_and_blacklists (jti : Nat) (s : TokenDb)
    (hnd : (s.refresh_tokens.map (fun r => r.token_jti)).Nodup)
    (hbl : _is_token_blacklisted jti s = false) :
    (revoke_refresh_token jti s).1 = none
  ∧ (∀ t, get_refresh_token_by_jti jti s = some t →
      (revoke_refresh_token jti s).2.blacklist =
        s.blacklist ++ [{ token_jti := jti, user_id := t.user_id }])
  ∧ (get_refresh_token_by_jti jti s = none →
      (revoke_refresh_token jti s).2.blacklist =
        s.blacklist ++ [{ token_jti := jti, user_id := 0 }])
  ∧ (∀ r ∈ (revoke_refresh_token jti s).2.refresh_tokens,
      r.token_jti = jti → r.is_revoked = true)
  ∧ (get_refresh_token_by_jti jti s = none →
      (revoke_refresh_token jti s).2.refresh_tokens = s.refresh_tokens) := by
  rw [_is_token_blacklisted] at hbl
  cases hf : s.refresh_tokens.find? (fun r => r.token_jti == jti) with
  | none =>
    have hnone : ∀ r ∈ s.refresh_tokens, r.token_jti = jti → r.is_revoked = true := by
      intro r hr hjr
      rw [List.find?_eq_none] at hf
      exact absurd (beq_iff_eq.mpr hjr) (hf r hr)
    have hstate : revoke_refresh_token jti s =
        (none, { s with blacklist :=
          s.blacklist ++ [{ token_jti := jti, user_id := 0 }] }) := by
      simp [revoke_refresh_token, hf, insertBlacklistEntry, hbl]
    refine ⟨?_, ?_, ?_, ?_, ?_⟩
    · rw [hstate]
    · intro t ht
      rw [get_refresh_token_by_jti, hf] at ht
      exact absurd ht (by simp)
    · intro _; rw [hstate]
    · rw [hstate]; simpa using hnone
    · intro _; rw [hstate]
  | some t =>
    have hmarked := markFirstRevoked_marks jti s.refresh_tokens hnd
    have hstate : revoke_refresh_token jti s =
        (none, { refresh_tokens := markFirstRevoked jti s.refresh_tokens,
                 blacklist :=
                   s.blacklist ++ [{ token_jti := jti, user_id := t.user_id }],
                 nextJti := s.nextJti }) := by
      simp [revoke_refresh_token, hf, insertBlacklistEntry, hbl]
    refine ⟨?_, ?_, ?_, ?_, ?_⟩
    · rw [hstate]
    · intro t' ht
      rw [get_refresh_token_by_jti, hf] at ht
      injection ht with ht'
      subst ht'
      rw [hstate]
    · intro hnone
      rw [get_refresh_token_by_jti, hf] at hnone
      exact absurd hnone (by simp)
    · rw [hstate]; simpa using hmarked
    · intro hnone
      rw [get_refresh_token_by_jti, hf] at hnone
      exact absurd hnone (by simp)

/-- Token state for the C5 witness: one live record for jti 7 owned by
user 1, nothing blacklisted yet. -/
def c5WitnessDb : TokenDb :=
  { refresh_tokens := [{ user_id := 1, token_jti := 7, is_revoked := false }],
    blacklist := [], nextJti := 8 }

/-- Witness for claim C5 at concrete inputs: revoking jti 7 errors nothing,
appends the one blacklist entry with the owner id, and revokes the record. -/
theorem C5_revoke_marks_and_blacklists_witness :
    (revoke_refresh_token 7 c5WitnessDb).1 = none
  ∧ (revoke_refresh_token 7 c5WitnessDb).2.blacklist =
      [{ token_jti := 7, user_id := 1 }]
  ∧ (∀ r ∈ (revoke_refresh_token 7 c5WitnessDb).2.refresh_tokens,
      r.token_jti = 7 → r.is_revoked = true) := by
  have h := C5_revoke_marks_and_blacklists 7 c5WitnessDb (by decide) (by decide)
  exact ⟨h.1, by simpa using h.2.1 { user_id := 1, token_jti := 7, is_revoked := false } rfl,
    h.2.2.2.1⟩

/-- Token state refuting claim C5 as stated: jti 5 is already blacklisted
(the state any first revocation leaves behind). -/
def c5Db : TokenDb :=
  { refresh_tokens := [{ user_id := 3, token_jti := 5, is_revoked := true }],
    blacklist := [{ token_jti := 5, user_id := 3 }], nextJti := 6 }

/-- Counterexample for claim C5 as stated: `token_jti` is `unique=True` on
the `token_blacklist` table, so for an already-blacklisted jti the
unconditional insert violates the constraint — the call raises an
integrity error and appends no blacklist entry, instead of appending
exactly one entry in every case. -/
theorem C5_counterexample_already_blacklisted :
    (revoke_refresh_token 5 c5Db).1 = some .integrityError
  ∧ (revoke_refresh_token 5 c5Db).2.blacklist = c5Db.blacklist := by
  exact ⟨rfl, rfl⟩

/-! ## Claim C9 -/

/-- Claim C9, amended: revoking a jti whose stored records are already all
revoked never reverts the revoked state and raises no not-found error, but
because the first revocation already blacklisted the jti and
`token_jti` is `unique=True` on the blacklist table, the repeated call
raises an integrity error from the unconditional blacklist insert and does
not append a duplicate entry. -/
theorem C9_revoke_already_revoked (jti : Nat) (s : TokenDb)
    (hall : ∀ r ∈ s.refresh_tokens, r.token_jti = jti → r.is_revoked = true)
    (hbl : _is_token_blacklisted jti s = true) :
    (∀ r ∈ (revoke_refresh_token jti s).2.refresh_tokens,
        r.token_jti = jti → r.is_revoked = true)
  ∧ (revoke_refresh_token jti s).1 = some .integrityError
  ∧ (revoke_refresh_token jti s).2.blacklist = s.blacklist := by
  have hkeep := markFirstRevoked_keeps jti s.refresh_tokens hall
  rw [_is_token_blacklisted] at hbl
  cases hf : s.refresh_tokens.find? (fun r => r.token_jti == jti) with
  | none =>
    have hstate : revoke_refresh_token jti s = (some .integrityError, s) := by
      simp [revoke_refresh_token, hf, insertBlacklistEntry, hbl]
    refine ⟨?_, ?_, ?_⟩
    · rw [hstate]; simpa using hall
    · rw [hstate]
    · rw [hstate]
  | some t =>
    have hstate : revoke_refresh_token jti s =
        (some .integrityError,
         { s with refresh_tokens := markFirstRevoked jti s.refresh_tokens }) := by
      simp [revoke_refresh_token, hf, insertBlacklistEntry, hbl]
    refine ⟨?_, ?_, ?_⟩
    · rw [hstate]; simpa using hkeep
    · rw [hstate]
    · rw [hstate]

/-- Token state for the C9 witness and counterexample: the state after a
first revocation of jti 9 — record revoked, jti blacklisted. -/
def c9Db : TokenDb :=
  { refresh_tokens := [{ user_id := 2, token_jti := 9, is_revoked := true }],
    blacklist := [{ token_jti := 9, user_id := 2 }], nextJti := 10 }

/-- Witness for amended claim C9 at concrete inputs. -/
theorem C9_revoke_already_revoked_witness :
    (∀ r ∈ (revoke_refresh_token 9 c9Db).2.refresh_tokens,
        r.token_jti = 9 → r.is_revoked = true)
  ∧ (revoke_refresh_token 9 c9Db).1 = some .integrityError
  ∧ (revoke_refresh_token 9 c9Db).2.blacklist = c9Db.blacklist := by
  exact C9_revoke_already_revoked 9 c9Db (by decide) (by decide)

/-- Counterexample for claim C9 as stated: repeating
`revoke_refresh_token` on the already-revoked (hence already-blacklisted)
jti 9 raises an integrity error and leaves the blacklist unchanged — the
repeated call neither "does not raise" nor appends a duplicate entry. -/
theorem C9_counterexample_repeat_revoke_raises :
    (revoke_refresh_token 9 c9Db).1 = some .integrityError
  ∧ (revoke_refresh_token 9 c9Db).2.blacklist.length = c9Db.blacklist.length := by
  exact ⟨rfl, rfl⟩

/-! ## Claim C3 -/

/-- Claim C3: for a refresh-token string that decodes and is not
blacklisted, `refresh_access_token` fails with the `AUTH_007` wrong-kind
error (distinct from the invalid/expired `AUTH_002` and both `AUTH_006`
revoked errors) when the `type` claim is not "refresh"; fails with an
authentication error when no stored refresh record exists for the jti or
the stored record is revoked; and on success returns a new access token
only, writing nothing to the refresh-token store or the blacklist. -/
theorem C3_refresh_access_token_spec (now : Nat) (token : Jwt) (s : TokenDb)
    (p : Payload) (hdec : decode_token now token = some p)
    (hbl : ∀ j, p.jti = some j → _is_token_blacklisted j s = false) :
    (p.typ ≠ some "refresh" →
      refresh_access_token now token s =
        .error (.authenticationException "Invalid token type" "AUTH_007")
      ∧ ServiceError.authenticationException "Invalid token type" "AUTH_007" ≠
          ServiceError.authenticationException "Invalid or expired token" "AUTH_002"
      ∧ ServiceError.authenticationException "Invalid token type" "AUTH_007" ≠
          ServiceError.authenticationException "Token has been revoked" "AUTH_006"
      ∧ ServiceError.authenticationException "Invalid token type" "AUTH_007" ≠
          ServiceError.authenticationException
            "Refresh token is invalid or revoked" "AUTH_006")
  ∧ (p.typ = some "refresh" →
      p.jti.bind (fun j => get_refresh_token_by_jti j s) = none →
      refresh_access_token now token s =
        .error (.authenticationException
          "Refresh token is invalid or revoked" "AUTH_006"))
  ∧ (∀ db_token, p.typ = some "refresh" →
      p.jti.bind (fun j => get_refresh_token_by_jti j s) = some db_token →
      db_token.is_revoked = true →
      refresh_access_token now token s =
        .error (.authenticationException
          "Refresh token is invalid or revoked" "AUTH_006"))
  ∧ (∀ db_token, p.typ = some "refresh" →
      p.jti.bind (fun j => get_refresh_token_by_jti j s) = some db_token →
      db_token.is_revoked = false →
      ∃ resp s1, refresh_access_token now token s = .ok (resp, s1)
        ∧ s1.refresh_tokens = s.refresh_tokens
        ∧ s1.blacklist = s.blacklist) := by
  have hval : validate_token now token s = .ok p := by
    rw [validate_token, hdec]
    cases hj : p.jti with
    | none => simp [hj]
    | some j => simp [hj, hbl j hj]
  refine ⟨?_, ?_, ?_, ?_⟩
  · intro htyp
    refine ⟨?_, by decide, by decide, by decide⟩
    simp [refresh_access_token, hval, bne_iff_ne, htyp]
  · intro htyp hlook
    simp [refresh_access_token, hval, htyp, hlook]
  · intro db_token htyp hlook hrev
    simp [refresh_access_token, hval, htyp, hlook, hrev]
  · intro db_token htyp hlook hrev
    have hok : refresh_access_token now token s =
        .ok ({ access_token := create_access_token now
                 { sub := p.sub, email := p.email, typ := some "access",
                   jti := some s.nextJti },
               token_type := "bearer",
               expires_in := ACCESS_TOKEN_EXPIRE_MINUTES * 60 },
             { s with nextJti := s.nextJti + 1 }) := by
      simp [refresh_access_token, hval, htyp, hlook, hrev, _generate_jti]
    exact ⟨_, _, hok, rfl, rfl⟩

/-- Token state for the C3 witness: a live record for jti 7, an already
revoked record for jti 8, nothing blacklisted. -/
def c3Db : TokenDb :=
  { refresh_tokens := [{ user_id := 1, token_jti := 7, is_revoked := false },
                       { user_id := 1, token_jti := 8, is_revoked := true }],
    blacklist := [], nextJti := 9 }

/-- A decodable refresh token for jti 7 of `c3Db` (string `sub`, so jose's
claim validation passes). -/
def c3RefreshTok : Jwt :=
  .signed { sub := some (.str "1"), email := some "a@x.com",
            typ := some "refresh", jti := some 7, exp := some 100 }

/-- A decodable access token presented as a refresh token. -/
def c3AccessTok : Jwt :=
  .signed { sub := some (.str "1"), email := some "a@x.com",
            typ := some "access", jti := some 7, exp := some 100 }

/-- Witness for claim C3 at concrete inputs: the access token presented for
refresh fails with the distinct `AUTH_007` error, and a valid refresh token
succeeds without touching the stores. -/
theorem C3_refresh_access_token_spec_witness :
    refresh_access_token 0 c3AccessTok c3Db =
      .error (.authenticationException "Invalid token type" "AUTH_007")
  ∧ (∃ resp s1, refresh_access_token 0 c3RefreshTok c3Db = .ok (resp, s1)
      ∧ s1.refresh_tokens = c3Db.refresh_tokens
      ∧ s1.blacklist = c3Db.blacklist) := by
  constructor
  · exact ((C3_refresh_access_token_spec 0 c3AccessTok c3Db
      { sub := some (.str "1"), email := some "a@x.com", typ := some "access",
        jti := some 7, exp := some 100 } rfl
      (by intro j hj; injection hj with hj'; subst hj'; rfl)).1
      (by decide)).1
  · exact (C3_refresh_access_token_spec 0 c3RefreshTok c3Db
      { sub := some (.str "1"), email := some "a@x.com", typ := some "refresh",
        jti := some 7, exp := some 100 } rfl
      (by intro j hj; injection hj with hj'; subst hj'; rfl)).2.2.2
      { user_id := 1, token_jti := 7, is_revoked := false } rfl rfl rfl

/-! ## Claim C7 -/

/-- Claim C7: `register_user` rejects an empty or at-sign-free email with a
validation error; otherwise rejects a weak password with a validation error
naming the first failing requirement of the fixed order length, uppercase,
lowercase, digit, special; otherwise rejects an already-registered email
with a conflict error; and otherwise persists one new user with
`is_active = true` whose stored password field is the bcrypt hash of the
password and not the password itself. -/
theorem C7_register_user_spec (email password : String) (db : UserDb) :
    ((email.isEmpty = true ∨ email.toList.contains '@' = false) →
      register_user email password db =
        .error (.validationException "Invalid email format" "VALIDATION_001"))
  ∧ (email.isEmpty = false → email.toList.contains '@' = true →
      password.length < 8 →
      register_user email password db =
        .error (.validationException
          "Password must be at least 8 characters" "VALIDATION_002"))
  ∧ (email.isEmpty = false → email.toList.contains '@' = true →
      ¬ password.length < 8 → password.toList.any Char.isUpper = false →
      register_user email password db =
        .error (.validationException
          "Password must contain uppercase letter" "VALIDATION_002"))
  ∧ (email.isEmpty = false → email.toList.contains '@' = true →
      ¬ password.length < 8 → password.toList.any Char.isUpper = true →
      password.toList.any Char.isLower = false →
      register_user email password db =
        .error (.validationException
          "Password must contain lowercase letter" "VALIDATION_002"))
  ∧ (email.isEmpty = false → email.toList.contains '@' = true →
      ¬ password.length < 8 → password.toList.any Char.isUpper = true →
      password.toList.any Char.isLower = true → password.toList.any Char.isDigit = false →
      register_user email password db =
        .error (.validationException
          "Password must contain digit" "VALIDATION_002"))
  ∧ (email.isEmpty = false → email.toList.contains '@' = true →
      ¬ password.length < 8 → password.toList.any Char.isUpper = true →
      password.toList.any Char.isLower = true → password.toList.any Char.isDigit = true →
      password.toList.any (fun c => specialCharacters.toList.contains c) = false →
      register_user email password db =
        .error (.validationException
          "Password must contain special character" "VALIDATION_002"))
  ∧ (email.isEmpty = false → email.toList.contains '@' = true →
      validate_password password = (true, none) →
      (∃ u ∈ db.users, u.email = email) →
      register_user email password db =
        .error (.conflictException "Email already registered" "CONFLICT_001"))
  ∧ (email.isEmpty = false → email.toList.contains '@' = true →
      validate_password password = (true, none) →
      (∀ u ∈ db.users, u.email ≠ email) →
      ∃ user db2, register_user email password db = .ok (user, db2)
        ∧ user.is_active = true
        ∧ user.password_hash = hash_password password
        ∧ user.password_hash ≠ password
        ∧ db2.users = db.users ++ [user]) := by
  refine ⟨?_, ?_, ?_, ?_, ?_, ?_, ?_, ?_⟩
  · intro h
    rcases h with h | h
    · rw [register_user, h]
      rfl
    · rw [register_user, h]
      simp
  · intro hne hat h8
    have hv : validate_password password =
        (false, some "Password must be at least 8 characters") := by
      rw [validate_password, if_pos h8]
    rw [register_user, hne, hat]
    simp [hv]
  · intro hne hat h8 hup
    have hv : validate_password password =
        (false, some "Password must contain uppercase letter") := by
      rw [validate_password, if_neg h8, hup]
      rfl
    rw [register_user, hne, hat]
    simp [hv]
  · intro hne hat h8 hup hlo
    have hv : validate_password password =
        (false, some "Password must contain lowercase letter") := by
      rw [validate_password, if_neg h8, hup, hlo]
      rfl
    rw [register_user, hne, hat]
    simp [hv]
  · intro hne hat h8 hup hlo hdi
    have hv : validate_password password =
        (false, some "Password must contain digit") := by
      rw [validate_password, if_neg h8, hup, hlo, hdi]
      rfl
    rw [register_user, hne, hat]
    simp [hv]
  · intro hne hat h8 hup hlo hdi hsp
    have hv : validate_password password =
        (false, some "Password must contain special character") := by
      rw [validate_password, if_neg h8, hup, hlo, hdi, hsp]
      rfl
    rw [register_user, hne, hat]
    simp [hv]
  · intro hne hat hv hex
    have hany : db.users.any (fun u => u.email == email) = true := by
      rcases hex with ⟨u, hu, he⟩
      exact List.any_eq_true.mpr ⟨u, hu, beq_iff_eq.mpr he⟩
    rw [register_user, hne, hat]
    simp only [Bool.not_true, Bool.or_false, if_neg Bool.false_ne_true, hv]
    rw [create_user]
    simp only [hany]
    rfl
  · intro hne hat hv hfresh
    have hany : db.users.any (fun u => u.email == email) = false := by
      rw [List.any_eq_false]
      intro u hu
      simp [hfresh u hu]
    have hreg : register_user email password db =
        .ok ({ id := db.nextId, email := email,
               password_hash := hash_password password, is_active := true },
             { users := db.users ++
                 [{ id := db.nextId, email := email,
                    password_hash := hash_password password,
                    is_active := true }],
               nextId := db.nextId + 1 }) := by
      rw [register_user, hne, hat]
      simp only [Bool.not_true, Bool.or_false, if_neg Bool.false_ne_true, hv]
      rw [create_user]
      simp only [hany]
      rfl
    exact ⟨_, _, hreg, rfl, rfl, hash_password_ne_password password, rfl⟩

/-- Witness for claim C7 at concrete inputs, one per branch of the policy:
bad email, each of the five password failures in order, the duplicate
email conflict, and a successful registration. -/
theorem C7_register_user_spec_witness :
    register_user "nx" "Passw0rd!" { users := [], nextId := 1 } =
      .error (.validationException "Invalid email format" "VALIDATION_001")
  ∧ register_user "a@x.com" "Aa1!" { users := [], nextId := 1 } =
      .error (.validationException
        "Password must be at least 8 characters" "VALIDATION_002")
  ∧ register_user "a@x.com" "password1!" { users := [], nextId := 1 } =
      .error (.validationException
        "Password must contain uppercase letter" "VALIDATION_002")
  ∧ register_user "a@x.com" "PASSWORD1!" { users := [], nextId := 1 } =
      .error (.validationException
        "Password must contain lowercase letter" "VALIDATION_002")
  ∧ register_user "a@x.com" "Password!" { users := [], nextId := 1 } =
      .error (.validationException
        "Password must contain digit" "VALIDATION_002")
  ∧ register_user "a@x.com" "Password1" { users := [], nextId := 1 } =
      .error (.validationException
        "Password must contain special character" "VALIDATION_002")
  ∧ register_user "a@x.com" "Passw0rd!"
      { users := [{ id := 1, email := "a@x.com",
                    password_hash := hash_password "Passw0rd!",
                    is_active := true }], nextId := 2 } =
      .error (.conflictException "Email already registered" "CONFLICT_001")
  ∧ (∃ user db2,
      register_user "a@x.com" "Passw0rd!" { users := [], nextId := 1 } =
        .ok (user, db2)
      ∧ user.is_active = true
      ∧ user.password_hash = hash_password "Passw0rd!"
      ∧ user.password_hash ≠ "Passw0rd!"
      ∧ db2.users = [] ++ [user]) := by
  refine ⟨?_, ?_, ?_, ?_, ?_, ?_, ?_, ?_⟩
  · exact (C7_register_user_spec "nx" "Passw0rd!" { users := [], nextId := 1 }).1
      (Or.inr rfl)
  · exact (C7_register_user_spec "a@x.com" "Aa1!"
      { users := [], nextId := 1 }).2.1 rfl rfl (by decide)
  · exact (C7_register_user_spec "a@x.com" "password1!"
      { users := [], nextId := 1 }).2.2.1 rfl rfl (by decide) rfl
  · exact (C7_register_user_spec "a@x.com" "PASSWORD1!"
      { users := [], nextId := 1 }).2.2.2.1 rfl rfl (by decide) rfl rfl
  · exact (C7_register_user_spec "a@x.com" "Password!"
      { users := [], nextId := 1 }).2.2.2.2.1 rfl rfl (by decide) rfl rfl rfl
  · exact (C7_register_user_spec "a@x.com" "Password1"
      { users := [], nextId := 1 }).2.2.2.2.2.1 rfl rfl (by decide) rfl rfl rfl rfl
  · exact (C7_register_user_spec "a@x.com" "Passw0rd!"
      { users := [{ id := 1, email := "a@x.com",
                    password_hash := hash_password "Passw0rd!",
                    is_active := true }], nextId := 2 }).2.2.2.2.2.2.1 rfl rfl rfl
      ⟨{ id := 1, email := "a@x.com", password_hash := hash_password "Passw0rd!",
         is_active := true }, by simp, rfl⟩
  · exact (C7_register_user_spec "a@x.com" "Passw0rd!"
      { users := [], nextId := 1 }).2.2.2.2.2.2.2 rfl rfl rfl (by simp)

/-! ## Claim C8 -/

/-- Claim C8 (refuted on the code): `generate_tokens` embeds the integer
`user_id` as the `sub` claim (token_service.py builds
`{"sub": user_id, ...}`), but `jwt.decode` with default options validates
registered claims and raises `JWTError("Subject must be a string.")` for a
non-string `sub` — so both minted tokens fail to decode and the claimed
decoded `type`-claim properties never hold.  The tokens are otherwise
well-formed: the evaluation shows the signed payloads carry the intended
`type` claims, distinct fresh jtis and an unexpired `exp`, and that an
otherwise-identical token whose `sub` is the string "1" decodes fine. -/
theorem C8_minted_tokens_fail_to_decode :
    ∃ resp s1,
      generate_tokens 0 1 "a@x.com"
          { refresh_tokens := [], blacklist := [], nextJti := 0 } =
        .ok (resp, s1)
      ∧ resp.access_token = .signed
          { sub := some (.num 1), email := some "a@x.com",
            typ := some "access", jti := some 0,
            exp := some (0 + ACCESS_TOKEN_EXPIRE_MINUTES * 60) }
      ∧ resp.refresh_token = .signed
          { sub := some (.num 1), email := some "a@x.com",
            typ := some "refresh", jti := some 1,
            exp := some (0 + REFRESH_TOKEN_EXPIRE_DAYS * 86400) }
      ∧ decode_token 0 resp.access_token = none
      ∧ decode_token 0 resp.refresh_token = none
      ∧ decode_token 0 (.signed
          { sub := some (.str "1"), email := some "a@x.com",
            typ := some "access", jti := some 0,
            exp := some (0 + ACCESS_TOKEN_EXPIRE_MINUTES * 60) }) = some
          { sub := some (.str "1"), email := some "a@x.com",
            typ := some "access", jti := some 0,
            exp := some (0 + ACCESS_TOKEN_EXPIRE_MINUTES * 60) } := by
  exact ⟨_, _, rfl, rfl, rfl, rfl, rfl, rfl⟩

end TodoApi
